import Mathlib

/-!
Shallow embedding of `gettext-rs` (`src/gettext-rs/src/lib.rs`), the safe Rust
facade over the native gettext C library.

Modelling conventions:

- Rust `String` / `Vec<u8>` values are byte lists (`Bytes`); a Rust `String`
  additionally satisfies `utf8Valid` (callers of the crate can only pass valid
  UTF-8 for `Into<String>` arguments, so theorems about those arguments carry
  `utf8Valid` hypotheses).
- The native library is opaque: an `FFI` structure holds one function per
  native entry point consumed by the crate.  Each native function returns the
  byte sequence found at the returned pointer (a C buffer, possibly containing
  a terminating 0 followed by junk); `CStr::from_ptr(p).to_bytes()` is
  modelled by `cstrToBytes`, which reads up to the first 0 byte.  Entry points
  that can return NULL are modelled with `Option`; `io::Error::last_os_error()`
  reads the `lastOsError` field.
- Rust panics (`CString::new(..).expect(..)`, `to_str().expect(..)`,
  `panic!`-style failures) are modelled by `RsResult.panicked` carrying a
  structured rendering of the panic message: `PanicMsg.nulIn a` stands for the
  source message "`<a>` contains an internal 0 byte" and `PanicMsg.invalidUtf8 f`
  for "<f>() returned invalid UTF-8" (resp. the codeset variant).
- Every public wrapper additionally returns the list of native entry points it
  invoked, in order (`List FFIEntry`), so that frame claims about which native
  calls a lookup makes are provable rather than assumed.
- `bindtextdomain` is embedded following the `#[cfg(not(windows))]` branch of
  the source (byte-oriented paths); the windows wide-character branch differs
  only in the encoding of `dir`.
-/

/-- Byte sequences: the content of Rust `String` / `Vec<u8>` / C buffers. -/
abbrev Bytes := List Nat

/-- The logical argument names that appear in the source's null-byte panic
messages, e.g. "`domain` contains an internal 0 byte". -/
inductive ArgName where
  | domain
  | s
  | singular
  | plural
  | ctx
  | dir
  | locale
  | codeset
deriving DecidableEq

/-- The function names that appear in the source's invalid-UTF-8 panic
messages, e.g. "gettext() returned invalid UTF-8". -/
inductive FnName where
  | gettextF
  | dgettextF
  | dcgettextF
  | ngettextF
  | dngettextF
  | dcngettextF
  | bindTextdomainCodesetF
deriving DecidableEq

/-- A Rust panic message, structured. `nulIn a` is the message
"`a` contains an internal 0 byte"; `invalidUtf8 f` is the message
"f() returned invalid UTF-8" (for `bind_textdomain_codeset`:
"`bind_textdomain_codeset()` returned non-UTF-8 string"). -/
inductive PanicMsg where
  | nulIn (arg : ArgName)
  | invalidUtf8 (fn : FnName)
deriving DecidableEq

/-- Outcome of running a Rust function that may panic. -/
inductive RsResult (α : Type) where
  | panicked (msg : PanicMsg)
  | ok (val : α)
deriving DecidableEq

/-- Rust `std::io::Error` as observed by this crate: only the raw OS error
code matters (`io::Error::last_os_error().raw_os_error()` is always `Some`). -/
structure IOError where
  rawOsError : Int
deriving DecidableEq

/-- Rust `Result<α, std::io::Error>`. -/
inductive IOResult (α : Type) where
  | err (e : IOError)
  | ok (val : α)
deriving DecidableEq

/-- The native entry points of the gettext C library used by the crate. -/
inductive FFIEntry where
  | gettextE
  | dgettextE
  | dcgettextE
  | ngettextE
  | dngettextE
  | dcngettextE
  | textdomainE
  | bindtextdomainE
  | setlocaleE
  | bindTextdomainCodesetE
deriving DecidableEq

/-- Whether a native entry point changes the native library's process-wide
state (current domain, directory bindings, locale, codeset bindings).  The
four mutating entry points are exactly the ones the crate's four mutating
wrappers call; the six lookup entry points are read-only catalog queries. -/
def FFIEntry.isMutating : FFIEntry → Bool
  | .textdomainE => true
  | .bindtextdomainE => true
  | .setlocaleE => true
  | .bindTextdomainCodesetE => true
  | _ => false

/-- Opaque model of the native gettext C library.  Lookup entry points return
the bytes at the returned (never NULL) pointer; mutating entry points return
`none` for a NULL result.  `lastOsError` is the errno value that
`io::Error::last_os_error()` observes after a NULL return. -/
structure FFI where
  gettext : Bytes → Bytes
  dgettext : Bytes → Bytes → Bytes
  dcgettext : Bytes → Bytes → Int → Bytes
  ngettext : Bytes → Bytes → Nat → Bytes
  dngettext : Bytes → Bytes → Bytes → Nat → Bytes
  dcngettext : Bytes → Bytes → Bytes → Nat → Int → Bytes
  textdomain : Bytes → Option Bytes
  bindtextdomain : Bytes → Bytes → Option Bytes
  setlocale : Int → Bytes → Option Bytes
  bind_textdomain_codeset : Bytes → Bytes → Option Bytes
  lastOsError : Int

/-- `CStr::from_ptr(p).to_bytes()`: the bytes of the buffer up to (and
excluding) the first 0 byte. -/
def cstrToBytes (buf : Bytes) : Bytes := buf.takeWhile (fun b => b ≠ 0)

/-- Mid-character state of the UTF-8 validation automaton: the next byte must
lie in `[lo, hi]`, and after it `more` further continuation bytes (each in
`[0x80, 0xBF]`) are expected. -/
structure Utf8Exp where
  lo : Nat
  hi : Nat
  more : Nat
deriving DecidableEq

/-- One step of the UTF-8 validation automaton (the RFC 3629 table, as checked
by Rust's `str::from_utf8` / `CStr::to_str`): `none` as state means "at a
character boundary"; the result is `none` on a malformed byte.  Overlong
encodings, surrogates (0xED second-byte restriction) and code points above
U+10FFFF (0xF4 second-byte restriction) are rejected. -/
def utf8Step : Option Utf8Exp → Nat → Option (Option Utf8Exp)
  | none, b =>
    if b ≤ 0x7F then some none
    else if 0xC2 ≤ b ∧ b ≤ 0xDF then some (some ⟨0x80, 0xBF, 0⟩)
    else if b = 0xE0 then some (some ⟨0xA0, 0xBF, 1⟩)
    else if (0xE1 ≤ b ∧ b ≤ 0xEC) ∨ b = 0xEE ∨ b = 0xEF then some (some ⟨0x80, 0xBF, 1⟩)
    else if b = 0xED then some (some ⟨0x80, 0x9F, 1⟩)
    else if b = 0xF0 then some (some ⟨0x90, 0xBF, 2⟩)
    else if 0xF1 ≤ b ∧ b ≤ 0xF3 then some (some ⟨0x80, 0xBF, 2⟩)
    else if b = 0xF4 then some (some ⟨0x80, 0x8F, 2⟩)
    else none
  | some e, b =>
    if e.lo ≤ b ∧ b ≤ e.hi then
      if e.more = 0 then some none else some (some ⟨0x80, 0xBF, e.more - 1⟩)
    else none

/-- Run the UTF-8 validation automaton from a given state: the bytes are
well formed and end at a character boundary. -/
def utf8ValidFrom : Option Utf8Exp → Bytes → Bool
  | st, [] => st.isNone
  | st, b :: t =>
    match utf8Step st b with
    | none => false
    | some st2 => utf8ValidFrom st2 t

/-- Well-formed UTF-8 (RFC 3629), as required of the byte content of a Rust
`String` and checked by `CStr::to_str`. -/
def utf8Valid (l : Bytes) : Bool := utf8ValidFrom none l

/-- Locale category enum ported from locale.h (lib.rs lines 104-133). -/
inductive LocaleCategory where
  | LcCType
  | LcNumeric
  | LcTime
  | LcCollate
  | LcMonetary
  | LcMessages
  | LcAll
  | LcPaper
  | LcName
  | LcAddress
  | LcTelephone
  | LcMeasurement
  | LcIdentification
deriving DecidableEq, Fintype

/-- The discriminant of each `LocaleCategory` variant: the value that
`category as i32` produces in the source. -/
def LocaleCategory.code : LocaleCategory → Int
  | .LcCType => 0
  | .LcNumeric => 1
  | .LcTime => 2
  | .LcCollate => 3
  | .LcMonetary => 4
  | .LcMessages => 5
  | .LcAll => 6
  | .LcPaper => 7
  | .LcName => 8
  | .LcAddress => 9
  | .LcTelephone => 10
  | .LcMeasurement => 11
  | .LcIdentification => 12

/-- Embedding of `gettext` (lib.rs 143-151). -/
def gettext (ffi : FFI) (s : Bytes) : RsResult Bytes × List FFIEntry :=
  if s.contains 0 then (.panicked (.nulIn .s), [])
  else
    let bytes := cstrToBytes (ffi.gettext s)
    if utf8Valid bytes then (.ok bytes, [.gettextE])
    else (.panicked (.invalidUtf8 .gettextF), [.gettextE])

/-- Embedding of `dgettext` (lib.rs 162-175). -/
def dgettext (ffi : FFI) (domain s : Bytes) : RsResult Bytes × List FFIEntry :=
  if domain.contains 0 then (.panicked (.nulIn .domain), [])
  else if s.contains 0 then (.panicked (.nulIn .s), [])
  else
    let bytes := cstrToBytes (ffi.dgettext domain s)
    if utf8Valid bytes then (.ok bytes, [.dgettextE])
    else (.panicked (.invalidUtf8 .dgettextF), [.dgettextE])

/-- Embedding of `dcgettext` (lib.rs 185-198). -/
def dcgettext (ffi : FFI) (domain s : Bytes) (category : LocaleCategory) :
    RsResult Bytes × List FFIEntry :=
  if domain.contains 0 then (.panicked (.nulIn .domain), [])
  else if s.contains 0 then (.panicked (.nulIn .s), [])
  else
    let bytes := cstrToBytes (ffi.dcgettext domain s category.code)
    if utf8Valid bytes then (.ok bytes, [.dcgettextE])
    else (.panicked (.invalidUtf8 .dcgettextF), [.dcgettextE])

/-- Embedding of `ngettext` (lib.rs 208-221).  `n : u32` is widened to
`c_ulong` in the source; both are modelled by `Nat`. -/
def ngettext (ffi : FFI) (singular plural : Bytes) (n : Nat) :
    RsResult Bytes × List FFIEntry :=
  if singular.contains 0 then (.panicked (.nulIn .singular), [])
  else if plural.contains 0 then (.panicked (.nulIn .plural), [])
  else
    let bytes := cstrToBytes (ffi.ngettext singular plural n)
    if utf8Valid bytes then (.ok bytes, [.ngettextE])
    else (.panicked (.invalidUtf8 .ngettextF), [.ngettextE])

/-- Embedding of `dngettext` (lib.rs 231-246). -/
def dngettext (ffi : FFI) (domain singular plural : Bytes) (n : Nat) :
    RsResult Bytes × List FFIEntry :=
  if domain.contains 0 then (.panicked (.nulIn .domain), [])
  else if singular.contains 0 then (.panicked (.nulIn .singular), [])
  else if plural.contains 0 then (.panicked (.nulIn .plural), [])
  else
    let bytes := cstrToBytes (ffi.dngettext domain singular plural n)
    if utf8Valid bytes then (.ok bytes, [.dngettextE])
    else (.panicked (.invalidUtf8 .dngettextF), [.dngettextE])

/-- Embedding of `dcngettext` (lib.rs 256-271). -/
def dcngettext (ffi : FFI) (domain singular plural : Bytes) (n : Nat)
    (category : LocaleCategory) : RsResult Bytes × List FFIEntry :=
  if domain.contains 0 then (.panicked (.nulIn .domain), [])
  else if singular.contains 0 then (.panicked (.nulIn .singular), [])
  else if plural.contains 0 then (.panicked (.nulIn .plural), [])
  else
    let bytes := cstrToBytes (ffi.dcngettext domain singular plural n category.code)
    if utf8Valid bytes then (.ok bytes, [.dcngettextE])
    else (.panicked (.invalidUtf8 .dcngettextF), [.dcngettextE])

/-- Embedding of `textdomain` (lib.rs 284-294).  The result bytes are NOT
UTF-8 validated: `CStr::to_bytes` only strips at the first 0 byte. -/
def textdomain (ffi : FFI) (domain : Bytes) :
    RsResult (IOResult Bytes) × List FFIEntry :=
  if domain.contains 0 then (.panicked (.nulIn .domain), [])
  else
    match ffi.textdomain domain with
    | none => (.ok (.err ⟨ffi.lastOsError⟩), [.textdomainE])
    | some buf => (.ok (.ok (cstrToBytes buf)), [.textdomainE])

/-- Embedding of `bindtextdomain` (lib.rs 306-357), `#[cfg(not(windows))]`
branch: `dir` is the byte content of the `OsString`/`PathBuf`, the returned
path is the raw bytes of the native result. -/
def bindtextdomain (ffi : FFI) (domain dir : Bytes) :
    RsResult (IOResult Bytes) × List FFIEntry :=
  if domain.contains 0 then (.panicked (.nulIn .domain), [])
  else if dir.contains 0 then (.panicked (.nulIn .dir), [])
  else
    match ffi.bindtextdomain domain dir with
    | none => (.ok (.err ⟨ffi.lastOsError⟩), [.bindtextdomainE])
    | some buf => (.ok (.ok (cstrToBytes buf)), [.bindtextdomainE])

/-- Embedding of `setlocale` (lib.rs 369-379).  A NULL native result is
surfaced as `none` (the source returns `Option<Vec<u8>>`, not a `Result`);
a non-NULL result is returned as raw bytes with no UTF-8 validation. -/
def setlocale (ffi : FFI) (category : LocaleCategory) (locale : Bytes) :
    RsResult (Option Bytes) × List FFIEntry :=
  if locale.contains 0 then (.panicked (.nulIn .locale), [])
  else
    match ffi.setlocale category.code locale with
    | none => (.ok none, [.setlocaleE])
    | some buf => (.ok (some (cstrToBytes buf)), [.setlocaleE])

/-- Embedding of `bind_textdomain_codeset` (lib.rs 395-420). -/
def bind_textdomain_codeset (ffi : FFI) (domain codeset : Bytes) :
    RsResult (IOResult (Option Bytes)) × List FFIEntry :=
  if domain.contains 0 then (.panicked (.nulIn .domain), [])
  else if codeset.contains 0 then (.panicked (.nulIn .codeset), [])
  else
    match ffi.bind_textdomain_codeset domain codeset with
    | none =>
      if ffi.lastOsError = 0 then (.ok (.ok none), [.bindTextdomainCodesetE])
      else (.ok (.err ⟨ffi.lastOsError⟩), [.bindTextdomainCodesetE])
    | some buf =>
      let bytes := cstrToBytes buf
      if utf8Valid bytes then (.ok (.ok (some bytes)), [.bindTextdomainCodesetE])
      else (.panicked (.invalidUtf8 .bindTextdomainCodesetF), [.bindTextdomainCodesetE])

/-- The byte of `CONTEXT_SEPARATOR` (`static CONTEXT_SEPARATOR: char = '\x04'`,
lib.rs 422).  Since 0x04 is an ASCII code point, a valid UTF-8 string contains
the char 0x04 exactly when its bytes contain the byte 4. -/
def CONTEXT_SEPARATOR : Nat := 4

/-- Embedding of `build_context_id` (lib.rs 424-426):
`format!("{}{}{}", ctx, CONTEXT_SEPARATOR, s)`. -/
def build_context_id (ctx s : Bytes) : Bytes := ctx ++ CONTEXT_SEPARATOR :: s

/-- Embedding of `pgettext` (lib.rs 442-459). -/
def pgettext (ffi : FFI) (ctx s : Bytes) : RsResult Bytes × List FFIEntry :=
  if ctx.contains 0 then (.panicked (.nulIn .ctx), [])
  else
    let text := build_context_id ctx s
    match gettext ffi text with
    | (.panicked msg, tr) => (.panicked msg, tr)
    | (.ok translated, tr) =>
      if translated.contains CONTEXT_SEPARATOR then
        let fallback := gettext ffi s
        (fallback.1, tr ++ fallback.2)
      else (.ok translated, tr)

/-- Embedding of `npgettext` (lib.rs 470-490). -/
def npgettext (ffi : FFI) (ctx singular plural : Bytes) (n : Nat) :
    RsResult Bytes × List FFIEntry :=
  if ctx.contains 0 then (.panicked (.nulIn .ctx), [])
  else
    let singular_ctx := build_context_id ctx singular
    let plural_ctx := build_context_id ctx plural
    match ngettext ffi singular_ctx plural_ctx n with
    | (.panicked msg, tr) => (.panicked msg, tr)
    | (.ok translated, tr) =>
      if translated.contains CONTEXT_SEPARATOR then
        let fallback := ngettext ffi singular plural n
        (fallback.1, tr ++ fallback.2)
      else (.ok translated, tr)

/-- A native library with no catalogs loaded: every lookup echoes its message
id back (gettext's documented behaviour for an unknown id), every mutating
call succeeds and echoes its argument. -/
def echoFFI : FFI where
  gettext := fun s => s
  dgettext := fun _ s => s
  dcgettext := fun _ s _ => s
  ngettext := fun singular plural n => if n = 1 then singular else plural
  dngettext := fun _ singular plural n => if n = 1 then singular else plural
  dcngettext := fun _ singular plural n _ => if n = 1 then singular else plural
  textdomain := fun domain => some domain
  bindtextdomain := fun _ dir => some dir
  setlocale := fun _ locale => some locale
  bind_textdomain_codeset := fun _ codeset => some codeset
  lastOsError := 0

/-- A native library whose catalog maps the composite id [67, 4, 83]
(context "C", id "S") to the translation [65, 4, 66], which itself contains
the separator byte 4; every other id echoes back. -/
def ctxCatalogFFI : FFI :=
  { echoFFI with gettext := fun id => if id = [67, 4, 83] then [65, 4, 66] else id }

/-- A native library whose catalog maps the composite id [67, 4, 83]
(context "C", id "S") to the separator-free translation [90, 90]; every other
id echoes back. -/
def ctxCleanCatalogFFI : FFI :=
  { echoFFI with gettext := fun id => if id = [67, 4, 83] then [90, 90] else id }

/-- A probe native library that reports back the category code it was handed:
each category-taking entry point returns the single byte 65 + code. -/
def categoryProbeFFI : FFI :=
  { echoFFI with
    dcgettext := fun _ _ code => [65 + code.toNat]
    dcngettext := fun _ _ _ _ code => [65 + code.toNat]
    setlocale := fun code _ => some [65 + code.toNat] }

/-- A native library whose mutating entry points all fail (NULL return) with
errno 42. -/
def failingFFI : FFI :=
  { echoFFI with
    textdomain := fun _ => none
    bindtextdomain := fun _ _ => none
    setlocale := fun _ _ => none
    bind_textdomain_codeset := fun _ _ => none
    lastOsError := 42 }

/-- A native library where `bind_textdomain_codeset` returns NULL with errno 0
(the "no codeset currently set" case). -/
def noCodesetFFI : FFI :=
  { echoFFI with bind_textdomain_codeset := fun _ _ => none, lastOsError := 0 }

/-- A native library whose lookups all return the byte 0xFF, which is not
well-formed UTF-8. -/
def badUtf8FFI : FFI :=
  { echoFFI with
    gettext := fun _ => [255]
    dgettext := fun _ _ => [255]
    dcgettext := fun _ _ _ => [255]
    ngettext := fun _ _ _ => [255]
    dngettext := fun _ _ _ _ => [255]
    dcngettext := fun _ _ _ _ _ => [255] }

/-- A native library returning nul-terminated non-UTF-8 buffers from its
mutating entry points. -/
def rawBytesFFI : FFI :=
  { echoFFI with
    textdomain := fun _ => some [195, 40, 0, 99]
    setlocale := fun _ _ => some [255, 254, 0] }

/-- Appending well-formed UTF-8 to a run of the validation automaton keeps it
accepting. -/
theorem utf8ValidFrom_append (b : Bytes) (hb : utf8Valid b = true) :
    ∀ (a : Bytes) (st : Option Utf8Exp), utf8ValidFrom st a = true →
      utf8ValidFrom st (a ++ b) = true := by
  intro a
  induction a with
  | nil =>
    intro st ha
    simp only [utf8ValidFrom, Option.isNone_iff_eq_none] at ha
    simpa [ha] using hb
  | cons b1 t ih =>
    intro st ha
    simp only [List.cons_append, utf8ValidFrom] at ha ⊢
    match h : utf8Step st b1 with
    | none =>
      rw [h] at ha
      simp at ha
    | some st2 =>
      rw [h] at ha
      dsimp only at ha ⊢
      exact ih st2 ha

/-- Concatenation of well-formed UTF-8 strings is well formed. -/
theorem utf8Valid_append (a b : Bytes) (ha : utf8Valid a = true) (hb : utf8Valid b = true) :
    utf8Valid (a ++ b) = true :=
  utf8ValidFrom_append b hb a none ha

/-- Prepending the ASCII separator byte preserves UTF-8 well-formedness. -/
theorem utf8Valid_sep_cons (s : Bytes) :
    utf8Valid (CONTEXT_SEPARATOR :: s) = utf8Valid s := by
  simp [utf8Valid, utf8ValidFrom, utf8Step, CONTEXT_SEPARATOR]

/-- The composite id contains no 0 byte when neither part does. -/
theorem build_context_id_no_nul (ctx s : Bytes) (hc : ctx.contains 0 = false)
    (hs : s.contains 0 = false) : (build_context_id ctx s).contains 0 = false := by
  simp [build_context_id, CONTEXT_SEPARATOR] at hc hs ⊢
  exact ⟨hc, hs⟩

/-- The composite id always contains the separator byte. -/
theorem build_context_id_has_sep (ctx s : Bytes) :
    CONTEXT_SEPARATOR ∈ build_context_id ctx s := by
  simp [build_context_id]

/-- The composite id of two well-formed UTF-8 strings is well formed (the
separator is an ASCII byte). -/
theorem utf8Valid_build_context_id (ctx s : Bytes) (hc : utf8Valid ctx = true)
    (hs : utf8Valid s = true) : utf8Valid (build_context_id ctx s) = true := by
  unfold build_context_id
  exact utf8Valid_append _ _ hc (by rw [utf8Valid_sep_cons]; exact hs)

/-- On a nul-free argument whose native result decodes as UTF-8, `gettext`
returns the decoded bytes with a single native lookup call. -/
theorem gettext_ok (ffi : FFI) (s : Bytes) (hs : s.contains 0 = false)
    (hv : utf8Valid (cstrToBytes (ffi.gettext s)) = true) :
    gettext ffi s = (.ok (cstrToBytes (ffi.gettext s)), [.gettextE]) := by
  simp at hs
  simp [gettext, hs, hv]

/-- C1: `pgettext(ctx, s)` first checks `ctx` for an embedded 0 byte (before
composing, before any native call), then looks up the composite id
`ctx ++ 0x04 ++ s` with plain `gettext`; a returned text still containing the
separator byte is discarded in favour of `gettext(s)`, and in particular when
the catalog has no entry for the composite id (the native lookup echoes the
composite id back), `pgettext(ctx, s)` agrees with `gettext(s)` for every
`ctx`. -/
theorem pgettext_context_fallback (ffi : FFI) (ctx s : Bytes)
    (hs : s.contains 0 = false)
    (hvc : utf8Valid ctx = true) (hvs : utf8Valid s = true) :
    (ctx.contains 0 = true → pgettext ffi ctx s = (.panicked (.nulIn .ctx), []))
    ∧ (ctx.contains 0 = false →
        (∀ tr, gettext ffi (build_context_id ctx s) = (.ok tr, [.gettextE]) →
          ((tr.contains CONTEXT_SEPARATOR = true →
              (pgettext ffi ctx s).1 = (gettext ffi s).1)
           ∧ (tr.contains CONTEXT_SEPARATOR = false →
              (pgettext ffi ctx s).1 = .ok tr)))
        ∧ (cstrToBytes (ffi.gettext (build_context_id ctx s)) = build_context_id ctx s →
            (pgettext ffi ctx s).1 = (gettext ffi s).1)) := by
  constructor
  · intro h
    simp at h
    simp [pgettext, h]
  · intro hc
    have hc' : 0 ∉ ctx := by simpa using hc
    constructor
    · intro tr htr
      constructor
      · intro h4
        simp at h4
        simp [pgettext, hc', htr, h4]
      · intro h4
        simp at h4
        simp [pgettext, hc', htr, h4]
    · intro hecho
      have hv : utf8Valid (build_context_id ctx s) = true :=
        utf8Valid_build_context_id ctx s hvc hvs
      have hg : gettext ffi (build_context_id ctx s) =
          (.ok (build_context_id ctx s), [.gettextE]) := by
        rw [gettext_ok ffi _ (build_context_id_no_nul ctx s hc hs)
          (by rw [hecho]; exact hv), hecho]
      simp [pgettext, hc', hg, build_context_id_has_sep]

/-- C1 witness: with no catalog loaded (echo), `pgettext("m", "O")` agrees
with `gettext("O")`. -/
theorem pgettext_context_fallback_witness :
    (pgettext echoFFI [109] [79]).1 = (gettext echoFFI [79]).1 :=
  ((pgettext_context_fallback echoFFI [109] [79] (by decide) (by decide)
    (by decide)).2 (by decide)).2 (by decide)

/-- C2 counterexample: the catalog of `ctxCatalogFFI` provides the translation
[65, 4, 66] for the composite id built from ctx = [67] and s = [83], yet
`pgettext` does not return it — the separator byte inside the translation
triggers the fallback, and the plain-id result [83] is returned instead. -/
theorem pgettext_sep_translation_cex :
    cstrToBytes (ctxCatalogFFI.gettext (build_context_id [67] [83])) = [65, 4, 66]
    ∧ (pgettext ctxCatalogFFI [67] [83]).1 = RsResult.ok [83]
    ∧ (RsResult.ok ([83] : Bytes) ≠ RsResult.ok ([65, 4, 66] : Bytes)) := by
  refine ⟨by decide, by decide, by decide⟩

/-- C2 (amended): if the catalog provides a translation for the composite id
and that translation does not contain the separator byte 0x04, `pgettext`
returns that composite-id translation; a composite-id translation containing
the separator byte is instead discarded in favour of the plain lookup. -/
theorem pgettext_composite_translation (ffi : FFI) (ctx s msgstr : Bytes)
    (hc : ctx.contains 0 = false) (hs : s.contains 0 = false)
    (hcat : cstrToBytes (ffi.gettext (build_context_id ctx s)) = msgstr)
    (hval : utf8Valid msgstr = true)
    (hsep : msgstr.contains CONTEXT_SEPARATOR = false) :
    (pgettext ffi ctx s).1 = .ok msgstr := by
  have hc' : 0 ∉ ctx := by simpa using hc
  have hsep' : CONTEXT_SEPARATOR ∉ msgstr := by simpa using hsep
  have hg : gettext ffi (build_context_id ctx s) = (.ok msgstr, [.gettextE]) := by
    rw [gettext_ok ffi _ (build_context_id_no_nul ctx s hc hs)
      (by rw [hcat]; exact hval), hcat]
  simp [pgettext, hc', hg, hsep']

/-- C2 witness: a separator-free composite-id translation [90, 90] is
returned by `pgettext` as-is. -/
theorem pgettext_composite_translation_witness :
    (pgettext ctxCleanCatalogFFI [67] [83]).1 = RsResult.ok [90, 90] :=
  pgettext_composite_translation ctxCleanCatalogFFI [67] [83] [90, 90]
    (by decide) (by decide) (by decide) (by decide) (by decide)

/-- C3: `npgettext(ctx, singular, plural, n)` performs the plural lookup with
both message ids replaced by their context-composite forms and the cardinality
`n` unchanged; if the result still contains the separator byte it re-runs
`ngettext` with the original ids and the same `n` and returns that, otherwise
it returns the composite-lookup result. -/
theorem npgettext_context_fallback (ffi : FFI) (ctx singular plural : Bytes) (n : Nat)
    (hc : ctx.contains 0 = false) ( _hsg : singular.contains 0 = false)
    ( _hpl : plural.contains 0 = false) :
    ∀ tr, ngettext ffi (build_context_id ctx singular) (build_context_id ctx plural) n
        = (.ok tr, [.ngettextE]) →
      ((tr.contains CONTEXT_SEPARATOR = true →
          (npgettext ffi ctx singular plural n).1 = (ngettext ffi singular plural n).1)
       ∧ (tr.contains CONTEXT_SEPARATOR = false →
          (npgettext ffi ctx singular plural n).1 = .ok tr)) := by
  intro tr htr
  have hc' : 0 ∉ ctx := by simpa using hc
  constructor
  · intro h4
    simp at h4
    simp [npgettext, hc', htr, h4]
  · intro h4
    simp at h4
    simp [npgettext, hc', htr, h4]

/-- C3 witness: with no catalog loaded, the composite plural lookup for n = 2
echoes back a separator-carrying text, so `npgettext` falls back to the plain
`ngettext` result. -/
theorem npgettext_context_fallback_witness :
    (npgettext echoFFI [99] [115] [112] 2).1 = (ngettext echoFFI [115] [112] 2).1 :=
  ((npgettext_context_fallback echoFFI [99] [115] [112] 2 (by decide) (by decide)
    (by decide)) [99, 4, 112] (by decide)).1 (by decide)

/-- C4: every public operation checks each text argument for an embedded 0
byte before any native call (the returned call trace is empty) and panics
naming exactly the offending logical argument; when several arguments are
candidates, the first one checked by the source is blamed. -/
theorem embedded_nul_byte_panics (ffi : FFI)
    (domain s singular plural ctx dir locale codeset : Bytes) (n : Nat)
    (c : LocaleCategory) :
    (s.contains 0 = true →
      gettext ffi s = (.panicked (.nulIn .s), []))
    ∧ (domain.contains 0 = true →
      dgettext ffi domain s = (.panicked (.nulIn .domain), []))
    ∧ (domain.contains 0 = false → s.contains 0 = true →
      dgettext ffi domain s = (.panicked (.nulIn .s), []))
    ∧ (domain.contains 0 = true →
      dcgettext ffi domain s c = (.panicked (.nulIn .domain), []))
    ∧ (domain.contains 0 = false → s.contains 0 = true →
      dcgettext ffi domain s c = (.panicked (.nulIn .s), []))
    ∧ (singular.contains 0 = true →
      ngettext ffi singular plural n = (.panicked (.nulIn .singular), []))
    ∧ (singular.contains 0 = false → plural.contains 0 = true →
      ngettext ffi singular plural n = (.panicked (.nulIn .plural), []))
    ∧ (domain.contains 0 = true →
      dngettext ffi domain singular plural n = (.panicked (.nulIn .domain), []))
    ∧ (domain.contains 0 = false → singular.contains 0 = true →
      dngettext ffi domain singular plural n = (.panicked (.nulIn .singular), []))
    ∧ (domain.contains 0 = false → singular.contains 0 = false → plural.contains 0 = true →
      dngettext ffi domain singular plural n = (.panicked (.nulIn .plural), []))
    ∧ (domain.contains 0 = true →
      dcngettext ffi domain singular plural n c = (.panicked (.nulIn .domain), []))
    ∧ (domain.contains 0 = false → singular.contains 0 = true →
      dcngettext ffi domain singular plural n c = (.panicked (.nulIn .singular), []))
    ∧ (domain.contains 0 = false → singular.contains 0 = false → plural.contains 0 = true →
      dcngettext ffi domain singular plural n c = (.panicked (.nulIn .plural), []))
    ∧ (domain.contains 0 = true →
      textdomain ffi domain = (.panicked (.nulIn .domain), []))
    ∧ (domain.contains 0 = true →
      bindtextdomain ffi domain dir = (.panicked (.nulIn .domain), []))
    ∧ (domain.contains 0 = false → dir.contains 0 = true →
      bindtextdomain ffi domain dir = (.panicked (.nulIn .dir), []))
    ∧ (locale.contains 0 = true →
      setlocale ffi c locale = (.panicked (.nulIn .locale), []))
    ∧ (domain.contains 0 = true →
      bind_textdomain_codeset ffi domain codeset = (.panicked (.nulIn .domain), []))
    ∧ (domain.contains 0 = false → codeset.contains 0 = true →
      bind_textdomain_codeset ffi domain codeset = (.panicked (.nulIn .codeset), []))
    ∧ (ctx.contains 0 = true →
      pgettext ffi ctx s = (.panicked (.nulIn .ctx), []))
    ∧ (ctx.contains 0 = false → s.contains 0 = true →
      pgettext ffi ctx s = (.panicked (.nulIn .s), []))
    ∧ (ctx.contains 0 = true →
      npgettext ffi ctx singular plural n = (.panicked (.nulIn .ctx), []))
    ∧ (ctx.contains 0 = false → singular.contains 0 = true →
      npgettext ffi ctx singular plural n = (.panicked (.nulIn .singular), []))
    ∧ (ctx.contains 0 = false → singular.contains 0 = false → plural.contains 0 = true →
      npgettext ffi ctx singular plural n = (.panicked (.nulIn .plural), [])) := by
  refine ⟨fun h => by simp at h; simp [gettext, h],
    fun h => by simp at h; simp [dgettext, h],
    fun h1 h2 => by simp at h1 h2; simp [dgettext, h1, h2],
    fun h => by simp at h; simp [dcgettext, h],
    fun h1 h2 => by simp at h1 h2; simp [dcgettext, h1, h2],
    fun h => by simp at h; simp [ngettext, h],
    fun h1 h2 => by simp at h1 h2; simp [ngettext, h1, h2],
    fun h => by simp at h; simp [dngettext, h],
    fun h1 h2 => by simp at h1 h2; simp [dngettext, h1, h2],
    fun h1 h2 h3 => by simp at h1 h2 h3; simp [dngettext, h1, h2, h3],
    fun h => by simp at h; simp [dcngettext, h],
    fun h1 h2 => by simp at h1 h2; simp [dcngettext, h1, h2],
    fun h1 h2 h3 => by simp at h1 h2 h3; simp [dcngettext, h1, h2, h3],
    fun h => by simp at h; simp [textdomain, h],
    fun h => by simp at h; simp [bindtextdomain, h],
    fun h1 h2 => by simp at h1 h2; simp [bindtextdomain, h1, h2],
    fun h => by simp at h; simp [setlocale, h],
    fun h => by simp at h; simp [bind_textdomain_codeset, h],
    fun h1 h2 => by simp at h1 h2; simp [bind_textdomain_codeset, h1, h2],
    fun h => by simp at h; simp [pgettext, h],
    fun h1 h2 => by
      simp at h1 h2
      simp [pgettext, gettext, build_context_id, CONTEXT_SEPARATOR, h1, h2],
    fun h => by simp at h; simp [npgettext, h],
    fun h1 h2 => by
      simp at h1 h2
      simp [npgettext, ngettext, build_context_id, CONTEXT_SEPARATOR, h1, h2],
    fun h1 h2 h3 => by
      simp at h1 h2 h3
      simp [npgettext, ngettext, build_context_id, CONTEXT_SEPARATOR, h1, h2, h3]⟩

/-- C4 witness: a nul inside `s`, `locale` and (with clean ctx and singular)
`plural` each panics blaming that argument, with no native call made. -/
theorem embedded_nul_byte_panics_witness :
    gettext echoFFI [104, 0] = (RsResult.panicked (PanicMsg.nulIn ArgName.s), [])
    ∧ setlocale echoFFI LocaleCategory.LcAll [108, 0]
        = (RsResult.panicked (PanicMsg.nulIn ArgName.locale), [])
    ∧ npgettext echoFFI [99] [115] [112, 0] 5
        = (RsResult.panicked (PanicMsg.nulIn ArgName.plural), []) := by
  obtain ⟨g1, _, _, _, _, _, _, _, _, _, _, _, _, _, _, _, g17, _, _, _, _, _, _, g24⟩ :=
    embedded_nul_byte_panics echoFFI [100] [104, 0] [115] [112, 0] [99] [47] [108, 0]
      [85] 5 LocaleCategory.LcAll
  exact ⟨g1 (by decide), g17 (by decide), g24 (by decide) (by decide) (by decide)⟩

/-- C5 counterexample: `setlocale`'s native call returns NULL while errno is
42, yet the wrapper surfaces plain `none` — a success-shaped absence carrying
no native error code, not an I/O-style error. -/
theorem setlocale_null_return_cex :
    failingFFI.setlocale LocaleCategory.LcAll.code [108] = none
    ∧ failingFFI.lastOsError = 42
    ∧ setlocale failingFFI .LcAll [108] = (RsResult.ok none, [FFIEntry.setlocaleE]) := by
  refine ⟨by decide, by decide, by decide⟩

/-- C5 (amended): a NULL return from `textdomain` or `bindtextdomain` is
surfaced as an I/O-style error carrying the last native error code; a NULL
return from `setlocale` is surfaced as `none`, with no error code attached
(and codeset binding is the separate special case of C6). -/
theorem mutating_null_error_returns (ffi : FFI) (domain dir locale : Bytes)
    (hd : domain.contains 0 = false) (hdir : dir.contains 0 = false)
    (hl : locale.contains 0 = false) (c : LocaleCategory) :
    (ffi.textdomain domain = none →
      textdomain ffi domain = (.ok (.err ⟨ffi.lastOsError⟩), [.textdomainE]))
    ∧ (ffi.bindtextdomain domain dir = none →
      bindtextdomain ffi domain dir = (.ok (.err ⟨ffi.lastOsError⟩), [.bindtextdomainE]))
    ∧ (ffi.setlocale c.code locale = none →
      setlocale ffi c locale = (.ok none, [.setlocaleE])) := by
  refine ⟨fun h => by simp at hd; simp [textdomain, hd, h],
    fun h => by simp at hd hdir; simp [bindtextdomain, hd, hdir, h],
    fun h => by simp at hl; simp [setlocale, hl, h]⟩

/-- C5 witness: a failing `textdomain` surfaces the native error code 42. -/
theorem mutating_null_error_returns_witness :
    textdomain failingFFI [100]
      = (RsResult.ok (IOResult.err ⟨42⟩), [FFIEntry.textdomainE]) :=
  (mutating_null_error_returns failingFFI [100] [47] [108] (by decide) (by decide)
    (by decide) LocaleCategory.LcAll).1 (by decide)

/-- C6: `bind_textdomain_codeset` maps a NULL native return with raw OS error
0 to the successful empty result `Ok(None)`, a NULL return with any other
error code to an error carrying that code, and a non-NULL return to the
decoded current codeset. -/
theorem bind_textdomain_codeset_cases (ffi : FFI) (domain codeset : Bytes)
    (hd : domain.contains 0 = false) (hcs : codeset.contains 0 = false) :
    (ffi.bind_textdomain_codeset domain codeset = none → ffi.lastOsError = 0 →
      bind_textdomain_codeset ffi domain codeset
        = (.ok (.ok none), [.bindTextdomainCodesetE]))
    ∧ (ffi.bind_textdomain_codeset domain codeset = none → ffi.lastOsError ≠ 0 →
      bind_textdomain_codeset ffi domain codeset
        = (.ok (.err ⟨ffi.lastOsError⟩), [.bindTextdomainCodesetE]))
    ∧ (∀ buf, ffi.bind_textdomain_codeset domain codeset = some buf →
        utf8Valid (cstrToBytes buf) = true →
        bind_textdomain_codeset ffi domain codeset
          = (.ok (.ok (some (cstrToBytes buf))), [.bindTextdomainCodesetE])) := by
  refine ⟨fun h h0 => by simp at hd hcs; simp [bind_textdomain_codeset, hd, hcs, h, h0],
    fun h h0 => by simp at hd hcs; simp [bind_textdomain_codeset, hd, hcs, h, h0],
    fun buf h hv => by simp at hd hcs; simp [bind_textdomain_codeset, hd, hcs, h, hv]⟩

/-- C6 witness: querying the codeset before any bind (NULL return, errno 0)
is a successful empty result, not an error. -/
theorem bind_textdomain_codeset_cases_witness :
    bind_textdomain_codeset noCodesetFFI [100] [85]
      = (RsResult.ok (IOResult.ok none), [FFIEntry.bindTextdomainCodesetE]) :=
  (bind_textdomain_codeset_cases noCodesetFFI [100] [85] (by decide) (by decide)).1
    (by decide) (by decide)

/-- C7: every lookup operation panics with the "returned invalid UTF-8"
failure when the native result bytes are not well-formed UTF-8, and returns an
owned copy of the decoded text when they are. -/
theorem lookup_utf8_validation (ffi : FFI) (domain s singular plural : Bytes)
    (n : Nat) (c : LocaleCategory)
    (hd : domain.contains 0 = false) (hs : s.contains 0 = false)
    (hsg : singular.contains 0 = false) (hpl : plural.contains 0 = false) :
    (utf8Valid (cstrToBytes (ffi.gettext s)) = false →
      gettext ffi s = (.panicked (.invalidUtf8 .gettextF), [.gettextE]))
    ∧ (utf8Valid (cstrToBytes (ffi.gettext s)) = true →
      gettext ffi s = (.ok (cstrToBytes (ffi.gettext s)), [.gettextE]))
    ∧ (utf8Valid (cstrToBytes (ffi.dgettext domain s)) = false →
      dgettext ffi domain s = (.panicked (.invalidUtf8 .dgettextF), [.dgettextE]))
    ∧ (utf8Valid (cstrToBytes (ffi.dgettext domain s)) = true →
      dgettext ffi domain s = (.ok (cstrToBytes (ffi.dgettext domain s)), [.dgettextE]))
    ∧ (utf8Valid (cstrToBytes (ffi.dcgettext domain s c.code)) = false →
      dcgettext ffi domain s c = (.panicked (.invalidUtf8 .dcgettextF), [.dcgettextE]))
    ∧ (utf8Valid (cstrToBytes (ffi.dcgettext domain s c.code)) = true →
      dcgettext ffi domain s c
        = (.ok (cstrToBytes (ffi.dcgettext domain s c.code)), [.dcgettextE]))
    ∧ (utf8Valid (cstrToBytes (ffi.ngettext singular plural n)) = false →
      ngettext ffi singular plural n
        = (.panicked (.invalidUtf8 .ngettextF), [.ngettextE]))
    ∧ (utf8Valid (cstrToBytes (ffi.ngettext singular plural n)) = true →
      ngettext ffi singular plural n
        = (.ok (cstrToBytes (ffi.ngettext singular plural n)), [.ngettextE]))
    ∧ (utf8Valid (cstrToBytes (ffi.dngettext domain singular plural n)) = false →
      dngettext ffi domain singular plural n
        = (.panicked (.invalidUtf8 .dngettextF), [.dngettextE]))
    ∧ (utf8Valid (cstrToBytes (ffi.dngettext domain singular plural n)) = true →
      dngettext ffi domain singular plural n
        = (.ok (cstrToBytes (ffi.dngettext domain singular plural n)), [.dngettextE]))
    ∧ (utf8Valid (cstrToBytes (ffi.dcngettext domain singular plural n c.code)) = false →
      dcngettext ffi domain singular plural n c
        = (.panicked (.invalidUtf8 .dcngettextF), [.dcngettextE]))
    ∧ (utf8Valid (cstrToBytes (ffi.dcngettext domain singular plural n c.code)) = true →
      dcngettext ffi domain singular plural n c
        = (.ok (cstrToBytes (ffi.dcngettext domain singular plural n c.code)),
            [.dcngettextE])) := by
  refine ⟨fun hv => by simp at hs; simp [gettext, hs, hv],
    fun hv => by simp at hs; simp [gettext, hs, hv],
    fun hv => by simp at hd hs; simp [dgettext, hd, hs, hv],
    fun hv => by simp at hd hs; simp [dgettext, hd, hs, hv],
    fun hv => by simp at hd hs; simp [dcgettext, hd, hs, hv],
    fun hv => by simp at hd hs; simp [dcgettext, hd, hs, hv],
    fun hv => by simp at hsg hpl; simp [ngettext, hsg, hpl, hv],
    fun hv => by simp at hsg hpl; simp [ngettext, hsg, hpl, hv],
    fun hv => by simp at hd hsg hpl; simp [dngettext, hd, hsg, hpl, hv],
    fun hv => by simp at hd hsg hpl; simp [dngettext, hd, hsg, hpl, hv],
    fun hv => by simp at hd hsg hpl; simp [dcngettext, hd, hsg, hpl, hv],
    fun hv => by simp at hd hsg hpl; simp [dcngettext, hd, hsg, hpl, hv]⟩

/-- C7 witness: a native result of the lone byte 0xFF makes `gettext` and
`ngettext` panic with the invalid-UTF-8 failure. -/
theorem lookup_utf8_validation_witness :
    gettext badUtf8FFI [104]
      = (RsResult.panicked (PanicMsg.invalidUtf8 FnName.gettextF), [FFIEntry.gettextE])
    ∧ ngettext badUtf8FFI [115] [112] 2
      = (RsResult.panicked (PanicMsg.invalidUtf8 FnName.ngettextF), [FFIEntry.ngettextE]) := by
  obtain ⟨g1, _, _, _, _, _, g7, _⟩ :=
    lookup_utf8_validation badUtf8FFI [100] [104] [115] [112] 2 LocaleCategory.LcAll
      (by decide) (by decide) (by decide) (by decide)
  exact ⟨g1 (by decide), g7 (by decide)⟩

/-- C8: the thirteen locale categories (and no others) carry exactly the
native codes 0 through 12 in declaration order, and each category-taking
operation (`dcgettext`, `dcngettext`, `setlocale`) hands exactly that code to
the native entry point, as observed through a probe native library that
reports the code it received. -/
theorem locale_category_codes :
    (LocaleCategory.code .LcCType = 0 ∧ LocaleCategory.code .LcNumeric = 1
      ∧ LocaleCategory.code .LcTime = 2 ∧ LocaleCategory.code .LcCollate = 3
      ∧ LocaleCategory.code .LcMonetary = 4 ∧ LocaleCategory.code .LcMessages = 5
      ∧ LocaleCategory.code .LcAll = 6 ∧ LocaleCategory.code .LcPaper = 7
      ∧ LocaleCategory.code .LcName = 8 ∧ LocaleCategory.code .LcAddress = 9
      ∧ LocaleCategory.code .LcTelephone = 10 ∧ LocaleCategory.code .LcMeasurement = 11
      ∧ LocaleCategory.code .LcIdentification = 12)
    ∧ (∀ cat : LocaleCategory, cat ∈ ([.LcCType, .LcNumeric, .LcTime, .LcCollate,
        .LcMonetary, .LcMessages, .LcAll, .LcPaper, .LcName, .LcAddress, .LcTelephone,
        .LcMeasurement, .LcIdentification] : List LocaleCategory))
    ∧ (∀ cat : LocaleCategory,
        (dcgettext categoryProbeFFI [100] [115] cat).1 = .ok [65 + cat.code.toNat])
    ∧ (∀ cat : LocaleCategory,
        (dcngettext categoryProbeFFI [100] [115] [112] 2 cat).1
          = .ok [65 + cat.code.toNat])
    ∧ (∀ cat : LocaleCategory,
        (setlocale categoryProbeFFI cat [108]).1 = .ok (some [65 + cat.code.toNat])) := by
  refine ⟨by decide, fun cat => by cases cat <;> decide,
    fun cat => by cases cat <;> decide, fun cat => by cases cat <;> decide,
    fun cat => by cases cat <;> decide⟩

/-- The trace of `gettext` holds no mutating native entry point. -/
theorem gettext_trace_all (ffi : FFI) (s : Bytes) :
    ((gettext ffi s).2).all (fun e => !e.isMutating) = true := by
  unfold gettext
  split
  · rfl
  · dsimp only
    split <;> rfl

/-- The trace of `dgettext` holds no mutating native entry point. -/
theorem dgettext_trace_all (ffi : FFI) (domain s : Bytes) :
    ((dgettext ffi domain s).2).all (fun e => !e.isMutating) = true := by
  unfold dgettext
  split
  · rfl
  · split
    · rfl
    · dsimp only
      split <;> rfl

/-- The trace of `dcgettext` holds no mutating native entry point. -/
theorem dcgettext_trace_all (ffi : FFI) (domain s : Bytes) (c : LocaleCategory) :
    ((dcgettext ffi domain s c).2).all (fun e => !e.isMutating) = true := by
  unfold dcgettext
  split
  · rfl
  · split
    · rfl
    · dsimp only
      split <;> rfl

/-- The trace of `ngettext` holds no mutating native entry point. -/
theorem ngettext_trace_all (ffi : FFI) (singular plural : Bytes) (n : Nat) :
    ((ngettext ffi singular plural n).2).all (fun e => !e.isMutating) = true := by
  unfold ngettext
  split
  · rfl
  · split
    · rfl
    · dsimp only
      split <;> rfl

/-- The trace of `dngettext` holds no mutating native entry point. -/
theorem dngettext_trace_all (ffi : FFI) (domain singular plural : Bytes) (n : Nat) :
    ((dngettext ffi domain singular plural n).2).all (fun e => !e.isMutating) = true := by
  unfold dngettext
  split
  · rfl
  · split
    · rfl
    · split
      · rfl
      · dsimp only
        split <;> rfl

/-- The trace of `dcngettext` holds no mutating native entry point. -/
theorem dcngettext_trace_all (ffi : FFI) (domain singular plural : Bytes) (n : Nat)
    (c : LocaleCategory) :
    ((dcngettext ffi domain singular plural n c).2).all (fun e => !e.isMutating)
      = true := by
  unfold dcngettext
  split
  · rfl
  · split
    · rfl
    · split
      · rfl
      · dsimp only
        split <;> rfl

/-- The trace of `pgettext` holds no mutating native entry point. -/
theorem pgettext_trace_all (ffi : FFI) (ctx s : Bytes) :
    ((pgettext ffi ctx s).2).all (fun e => !e.isMutating) = true := by
  have h1 := gettext_trace_all ffi (build_context_id ctx s)
  have h2 := gettext_trace_all ffi s
  unfold pgettext
  split
  · rfl
  · dsimp only
    rcases hg : gettext ffi (build_context_id ctx s) with ⟨r, tr⟩
    rw [hg] at h1
    rcases r with m | tv
    · simpa using h1
    · dsimp only
      split
      · simp [List.all_append] at h1 h2 ⊢
        exact ⟨h1, h2⟩
      · simpa using h1

/-- The trace of `npgettext` holds no mutating native entry point. -/
theorem npgettext_trace_all (ffi : FFI) (ctx singular plural : Bytes) (n : Nat) :
    ((npgettext ffi ctx singular plural n).2).all (fun e => !e.isMutating) = true := by
  have h1 := ngettext_trace_all ffi (build_context_id ctx singular)
    (build_context_id ctx plural) n
  have h2 := ngettext_trace_all ffi singular plural n
  unfold npgettext
  split
  · rfl
  · dsimp only
    rcases hg : ngettext ffi (build_context_id ctx singular) (build_context_id ctx plural) n
      with ⟨r, tr⟩
    rw [hg] at h1
    rcases r with m | tv
    · simpa using h1
    · dsimp only
      split
      · simp [List.all_append] at h1 h2 ⊢
        exact ⟨h1, h2⟩
      · simpa using h1

/-- C9: the native calls made by the eight lookup operations are all
non-mutating entry points — only the four mutating wrappers ever invoke a
state-changing native entry point. -/
theorem lookups_invoke_no_mutating_entry (ffi : FFI)
    (domain s singular plural ctx : Bytes) (n : Nat) (c : LocaleCategory) :
    ((gettext ffi s).2.all (fun e => !e.isMutating) = true)
    ∧ ((dgettext ffi domain s).2.all (fun e => !e.isMutating) = true)
    ∧ ((dcgettext ffi domain s c).2.all (fun e => !e.isMutating) = true)
    ∧ ((ngettext ffi singular plural n).2.all (fun e => !e.isMutating) = true)
    ∧ ((dngettext ffi domain singular plural n).2.all (fun e => !e.isMutating) = true)
    ∧ ((dcngettext ffi domain singular plural n c).2.all (fun e => !e.isMutating) = true)
    ∧ ((pgettext ffi ctx s).2.all (fun e => !e.isMutating) = true)
    ∧ ((npgettext ffi ctx singular plural n).2.all (fun e => !e.isMutating) = true) :=
  ⟨gettext_trace_all ffi s, dgettext_trace_all ffi domain s,
    dcgettext_trace_all ffi domain s c, ngettext_trace_all ffi singular plural n,
    dngettext_trace_all ffi domain singular plural n,
    dcngettext_trace_all ffi domain singular plural n c,
    pgettext_trace_all ffi ctx s, npgettext_trace_all ffi ctx singular plural n⟩

/-- Reading a nul-terminated buffer with `CStr` strips exactly the trailing
terminator. -/
theorem cstrToBytes_append_nul :
    ∀ content : Bytes, content.contains 0 = false →
      cstrToBytes (content ++ [0]) = content := by
  intro content
  induction content with
  | nil => intro _; simp [cstrToBytes]
  | cons b t ih =>
    intro h
    have h' : ¬(0 = b ∨ 0 ∈ t) := by simpa using h
    push_neg at h'
    have hb : b ≠ 0 := fun e => h'.1 e.symm
    have ht : List.contains t 0 = false := by simpa using h'.2
    simp only [List.cons_append, cstrToBytes, List.takeWhile_cons] at ih ⊢
    simp [hb]
    simpa using ih ht

/-- C10: `textdomain` and `setlocale` return the native result bytes verbatim
as owned byte vectors — the trailing nul terminator stripped, and no UTF-8
validation performed: even a non-UTF-8 native result is returned as a success
carrying the raw bytes. -/
theorem textdomain_setlocale_raw_bytes (ffi : FFI) (domain locale : Bytes)
    (c : LocaleCategory) (hd : domain.contains 0 = false)
    (hl : locale.contains 0 = false) :
    (∀ buf, ffi.textdomain domain = some buf →
      textdomain ffi domain = (.ok (.ok (cstrToBytes buf)), [.textdomainE]))
    ∧ (∀ content, content.contains 0 = false →
        ffi.textdomain domain = some (content ++ [0]) →
        textdomain ffi domain = (.ok (.ok content), [.textdomainE]))
    ∧ (∀ buf, utf8Valid (cstrToBytes buf) = false → ffi.textdomain domain = some buf →
        textdomain ffi domain = (.ok (.ok (cstrToBytes buf)), [.textdomainE]))
    ∧ (∀ buf, ffi.setlocale c.code locale = some buf →
      setlocale ffi c locale = (.ok (some (cstrToBytes buf)), [.setlocaleE]))
    ∧ (∀ content, content.contains 0 = false →
        ffi.setlocale c.code locale = some (content ++ [0]) →
        setlocale ffi c locale = (.ok (some content), [.setlocaleE]))
    ∧ (∀ buf, utf8Valid (cstrToBytes buf) = false →
        ffi.setlocale c.code locale = some buf →
        setlocale ffi c locale = (.ok (some (cstrToBytes buf)), [.setlocaleE])) := by
  refine ⟨fun buf h => by simp at hd; simp [textdomain, hd, h],
    fun content hc h => by
      simp at hd
      simp [textdomain, hd, h, cstrToBytes_append_nul content hc],
    fun buf _ h => by simp at hd; simp [textdomain, hd, h],
    fun buf h => by simp at hl; simp [setlocale, hl, h],
    fun content hc h => by
      simp at hl
      simp [setlocale, hl, h, cstrToBytes_append_nul content hc],
    fun buf _ h => by simp at hl; simp [setlocale, hl, h]⟩

/-- C10 witness: nul-terminated non-UTF-8 native buffers come back from
`textdomain` and `setlocale` as raw byte successes with the terminator
stripped. -/
theorem textdomain_setlocale_raw_bytes_witness :
    textdomain rawBytesFFI [100]
      = (RsResult.ok (IOResult.ok [195, 40]), [FFIEntry.textdomainE])
    ∧ setlocale rawBytesFFI LocaleCategory.LcAll [108]
      = (RsResult.ok (some [255, 254]), [FFIEntry.setlocaleE]) := by
  obtain ⟨_, _, g3, _, _, g6⟩ :=
    textdomain_setlocale_raw_bytes rawBytesFFI [100] [108] LocaleCategory.LcAll
      (by decide) (by decide)
  exact ⟨g3 [195, 40, 0, 99] (by decide) (by decide),
    g6 [255, 254, 0] (by decide) (by decide)⟩
